import Mathlib

/-!
A shallow embedding of the `fresh8/health` Go package (file `health.go`)
and proofs about its behaviour.

Modelling conventions:

* Go slices become `List`, Go `string` becomes `String`, the `uint32`
  type `Level` becomes `Nat` (no arithmetic is ever performed on a
  `Level`; the code only compares it for equality, so `Nat` is a
  faithful carrier for its values `0`, `1`, and any other registered
  value).
* A dependency's probe `check func() bool` is modelled, for the single
  evaluation cycle under consideration, by the boolean it returns during
  that cycle (`check : Bool`): within one call of `updateStatus` each
  probe is invoked at most once, and within `RegisterDependency` exactly
  once, so a single boolean per dependency captures one cycle exactly.
* To reason about WHICH probes were invoked (the short-circuit claims),
  the loop of `updateStatus` and the body of `RegisterDependency`
  additionally return the log of the names whose probe was called /
  the number of probe invocations; these logs mirror the call sites of
  `check()` in the Go source one-for-one.
* Mutation of the receiver becomes explicit state passing; a Go method
  returning `error` while possibly mutating `s` becomes a function
  returning the (possibly unchanged) state together with an
  `Option Err`.
* `encoding/json` is a Go standard-library collaborator: it is modelled
  at the JSON-value level (an inductive `Json` AST).  The encoder
  follows the struct tags of `ServiceCheck` and `Dependency`
  (`name`, `healthy`, `dependencies`, `level`; the unexported `check`
  field is not serialized), and the decoder follows Go's `Decode`
  semantics for those structs: an absent key leaves the zero value, a
  key of the wrong JSON type is an error, unknown keys are ignored.
* The HTTP transport in `Check200Helper` and `Get` is an external
  collaborator; each fallible external step (URL parsing, request
  construction, performing the request) is a parameter carrying that
  step's outcome, and the functions reproduce the Go control flow over
  those outcomes.
-/

namespace Health

/-- The three package-level error values of `health.go`. -/
inductive Err
  | ErrNoServiceNameSupplied
  | ErrDependencyAlreadyRegistered
  | ErrNoDependency
deriving DecidableEq, Repr

/-- `type Level uint32`; `LevelSoft = 0`, `LevelHard = 1`, but any
`uint32` value is a `Level`. -/
abbrev Level := Nat

/-- `LevelSoft Level = 0`. -/
def LevelSoft : Level := 0

/-- `LevelHard Level = 1`. -/
def LevelHard : Level := 1

/-- The `Dependency` struct: exported fields `Name`, `Healthy`, `Level`
and the unexported probe `check`, modelled by its boolean result for the
cycle under consideration. -/
structure Dependency where
  name : String
  healthy : Bool
  level : Level
  check : Bool
deriving DecidableEq, Repr

/-- The `ServiceCheck` struct: exported fields `Name`, `Healthy`,
`Dependencies` and the unexported `duration` (the mutex carries no
state). -/
structure ServiceCheck where
  name : String
  healthy : Bool
  dependencies : List Dependency
  duration : Nat
deriving DecidableEq, Repr

/-- `InitialiseServiceCheck`: rejects an empty name, otherwise builds
the struct literal
`&ServiceCheck{Name: name, Healthy: true, duration: duration}` (the
current variant of the initializer sets `Healthy: true` explicitly); the
remaining fields keep their Go zero values. -/
def InitialiseServiceCheck (name : String) (duration : Nat) :
    Except Err ServiceCheck :=
  if name = "" then
    Except.error Err.ErrNoServiceNameSupplied
  else
    Except.ok { name := name, healthy := true, dependencies := [], duration := duration }

/-- The loop body of `updateStatus`: walk the dependencies in order,
overwrite each `Healthy` with the probe result, and on the first
dependency that is unhealthy with `Level == LevelHard` stop (returning
aggregate `false` and leaving the remaining records untouched);
if the loop completes, the aggregate is `true`.  The third component is
the log of names whose probe was invoked, one entry per execution of
`dependency.check()`. -/
def updateStatusLoop : List Dependency → List Dependency × Bool × List String
  | [] => ([], true, [])
  | d :: rest =>
    let d' : Dependency := { d with healthy := d.check }
    if !d'.healthy && d'.level = LevelHard then
      (d' :: rest, false, [d.name])
    else
      let r := updateStatusLoop rest
      (d' :: r.1, r.2.1, d.name :: r.2.2)

/-- `updateStatus`: run the loop and store the resulting records and
aggregate back into the `ServiceCheck`. -/
def ServiceCheck.updateStatus (s : ServiceCheck) : ServiceCheck :=
  let r := updateStatusLoop s.dependencies
  { s with dependencies := r.1, healthy := r.2.1 }

/-- The names whose probe `updateStatus` invokes on `s`, in invocation
order. -/
def ServiceCheck.probedNames (s : ServiceCheck) : List String :=
  (updateStatusLoop s.dependencies).2.2

/-- The aggregate computed by one loop run is `true` exactly when no
dependency is hard with a failing probe. -/
theorem updateStatusLoop_healthy (ds : List Dependency) :
    (updateStatusLoop ds).2.1 =
      ds.all (fun d => !(d.level = LevelHard && !d.check)) := by
  induction ds with
  | nil => rfl
  | cons d rest ih =>
      by_cases hc : d.check
      · simp [updateStatusLoop, hc, ih]
      · simp only [Bool.not_eq_true] at hc
        by_cases hl : d.level = LevelHard
        · simp [updateStatusLoop, hc, hl]
        · simp [updateStatusLoop, hc, hl, ih]

/-- `RegisterDependency`: reject an empty name with `ErrNoDependency`,
reject a name already present with `ErrDependencyAlreadyRegistered`
(the loop over `s.Dependencies` comparing names is the `any` below); on
success build the record with `Healthy: check()` and append it.  The
result is `(returned error, state after the call, number of times the
probe was invoked)`; the only call site of `check()` is in the success
branch's struct literal, hence the counts `0`, `0`, `1`. -/
def ServiceCheck.RegisterDependency (s : ServiceCheck) (name : String)
    (level : Level) (check : Bool) : Option Err × ServiceCheck × Nat :=
  if name = "" then
    (some Err.ErrNoDependency, s, 0)
  else if s.dependencies.any (fun d => d.name = name) then
    (some Err.ErrDependencyAlreadyRegistered, s, 0)
  else
    (none,
     { s with dependencies := s.dependencies ++
        [{ name := name, healthy := check, level := level, check := check }] },
     1)

/-- The loop's short-circuit test for a dependency: after the overwrite
`dependency.Healthy = dependency.check()`, the guard
`!dependency.Healthy && dependency.Level == LevelHard` holds exactly
when the probe returned `false` and the level is hard. -/
def hardFailing (d : Dependency) : Bool :=
  !d.check && d.level = LevelHard

/-- When some dependency is hard-failing, one loop run probes exactly the
dependencies up to and including the first hard-failing one, rewrites
their `healthy` fields, leaves every later record untouched, and yields
aggregate `false`. -/
theorem updateStatusLoop_shortCircuit (ds : List Dependency)
    (h : ∃ d ∈ ds, hardFailing d = true) :
    updateStatusLoop ds =
      ((ds.take (ds.findIdx hardFailing + 1)).map
          (fun d => { d with healthy := d.check })
        ++ ds.drop (ds.findIdx hardFailing + 1),
       false,
       (ds.take (ds.findIdx hardFailing + 1)).map Dependency.name) := by
  induction ds with
  | nil => simp at h
  | cons d rest ih =>
      by_cases hb : hardFailing d = true
      · have hfi : (d :: rest).findIdx hardFailing = 0 := by
          simp [List.findIdx_cons, hb]
        have hb' : (!d.check && d.level = LevelHard) = true := hb
        simp only [updateStatusLoop, hfi, hb']
        simp
      · have hfi : (d :: rest).findIdx hardFailing =
            rest.findIdx hardFailing + 1 := by
          simp [List.findIdx_cons, hb]
        have hrest : ∃ x ∈ rest, hardFailing x = true := by
          rcases h with ⟨x, hx, hxf⟩
          rcases List.mem_cons.mp hx with rfl | hx'
          · exact absurd hxf hb
          · exact ⟨x, hx', hxf⟩
        have hb' : ¬ ((!d.check && d.level = LevelHard) = true) := hb
        simp only [updateStatusLoop, hb', if_neg, ih hrest, hfi]
        simp

/-- C2: if some hard-severity dependency's probe fails, then during that
cycle the probe log is exactly the names up to and including the first
hard-failing dependency (so later dependencies are never probed), every
record after that position is left exactly as it was before the cycle,
and the aggregate is `false`. -/
theorem updateStatus_short_circuit (s : ServiceCheck)
    (h : ∃ d ∈ s.dependencies, d.level = LevelHard ∧ d.check = false) :
    s.probedNames =
      (s.dependencies.take (s.dependencies.findIdx hardFailing + 1)).map
        Dependency.name ∧
    s.updateStatus.dependencies.drop (s.dependencies.findIdx hardFailing + 1) =
      s.dependencies.drop (s.dependencies.findIdx hardFailing + 1) ∧
    s.updateStatus.healthy = false := by
  have h' : ∃ d ∈ s.dependencies, hardFailing d = true := by
    rcases h with ⟨d, hd, hl, hc⟩
    exact ⟨d, hd, by simp [hardFailing, hl, hc]⟩
  have key := updateStatusLoop_shortCircuit s.dependencies h'
  refine ⟨?_, ?_, ?_⟩
  · show (updateStatusLoop s.dependencies).2.2 = _
    rw [key]
  · show (updateStatusLoop s.dependencies).1.drop _ = _
    rw [key]
    have hlt : s.dependencies.findIdx hardFailing < s.dependencies.length :=
      List.findIdx_lt_length_of_exists h'
    have hlen : ((s.dependencies.take
        (s.dependencies.findIdx hardFailing + 1)).map
          (fun d => { d with healthy := d.check })).length =
        s.dependencies.findIdx hardFailing + 1 := by
      simp [Nat.min_eq_left hlt]
    exact List.drop_left' hlen
  · show (updateStatusLoop s.dependencies).2.1 = false
    rw [key]

/-- C1: after one `updateStatus` cycle the aggregate `Healthy` flag is
`true` exactly when no hard-severity dependency's probe returned `false`
during that cycle; in particular it is `true` whenever the dependency
list is empty, and soft results never matter. -/
theorem updateStatus_healthy_iff (s : ServiceCheck) :
    s.updateStatus.healthy = true ↔
      ∀ d ∈ s.dependencies, d.level = LevelHard → d.check = true := by
  show (updateStatusLoop s.dependencies).2.1 = true ↔ _
  rw [updateStatusLoop_healthy]
  simp [List.all_eq_true]
  constructor
  · intro h d hd hl
    have := h d hd
    simpa [hl] using this
  · intro h d hd
    by_cases hl : d.level = LevelHard
    · simp [hl, h d hd hl]
    · simp [hl]

/-- JSON values, the level at which the `encoding/json` collaborator is
modelled. -/
inductive Json
  | str (s : String)
  | bool (b : Bool)
  | num (n : Nat)
  | arr (xs : List Json)
  | obj (fields : List (String × Json))

/-- Encoding of a `Dependency` per its struct tags: `name`, `healthy`,
`level`; the unexported probe is not serialized. -/
def encodeDependency (d : Dependency) : Json :=
  Json.obj [("name", Json.str d.name),
            ("healthy", Json.bool d.healthy),
            ("level", Json.num d.level)]

/-- Encoding of a `ServiceCheck` per its struct tags: `name`, `healthy`,
`dependencies`; the unexported `duration` and mutex are not
serialized. -/
def encodeServiceCheck (s : ServiceCheck) : Json :=
  Json.obj [("name", Json.str s.name),
            ("healthy", Json.bool s.healthy),
            ("dependencies", Json.arr (s.dependencies.map encodeDependency))]

/-- `WriteStatus` encodes the receiver with `json.NewEncoder(w).Encode`;
modelled as producing the JSON value written to the writer. -/
def ServiceCheck.WriteStatus (s : ServiceCheck) : Json :=
  encodeServiceCheck s

/-- First binding of a key in a JSON object, as Go's decoder sees it. -/
def lookupField : List (String × Json) → String → Option Json
  | [], _ => none
  | (k, v) :: rest, key => if k = key then some v else lookupField rest key

/-- Go `Decode` semantics for a `string` struct field: absent key keeps
the zero value `""`, a non-string value is an unmarshal error. -/
def decodeStringField (fs : List (String × Json)) (k : String) :
    Except String String :=
  match lookupField fs k with
  | none => Except.ok ""
  | some (Json.str v) => Except.ok v
  | some _ => Except.error "cannot unmarshal string field"

/-- Go `Decode` semantics for a `bool` struct field: absent key keeps
the zero value `false`, a non-boolean value is an unmarshal error. -/
def decodeBoolField (fs : List (String × Json)) (k : String) :
    Except String Bool :=
  match lookupField fs k with
  | none => Except.ok false
  | some (Json.bool v) => Except.ok v
  | some _ => Except.error "cannot unmarshal bool field"

/-- Go `Decode` semantics for a `uint32` struct field: absent key keeps
the zero value `0`, a non-numeric value is an unmarshal error. -/
def decodeNatField (fs : List (String × Json)) (k : String) :
    Except String Nat :=
  match lookupField fs k with
  | none => Except.ok 0
  | some (Json.num v) => Except.ok v
  | some _ => Except.error "cannot unmarshal numeric field"

/-- Decoding one `Dependency` object; the unexported probe keeps its
zero value. -/
def decodeDependency : Json → Except String Dependency
  | Json.obj fs => do
      let n ← decodeStringField fs "name"
      let h ← decodeBoolField fs "healthy"
      let l ← decodeNatField fs "level"
      Except.ok { name := n, healthy := h, level := l, check := false }
  | _ => Except.error "cannot unmarshal dependency"

/-- Decoding a JSON array of dependencies element by element. -/
def decodeDependencyList : List Json → Except String (List Dependency)
  | [] => Except.ok []
  | j :: rest => do
      let d ← decodeDependency j
      let ds ← decodeDependencyList rest
      Except.ok (d :: ds)

/-- Decoding a `ServiceCheck` as `json.NewDecoder(...).Decode(&response)`
does: exported fields from their tags, unexported `duration` keeps its
zero value, absent keys keep zero values. -/
def decodeServiceCheck : Json → Except String ServiceCheck
  | Json.obj fs => do
      let n ← decodeStringField fs "name"
      let h ← decodeBoolField fs "healthy"
      let ds ← (match lookupField fs "dependencies" with
        | none => Except.ok []
        | some (Json.arr xs) => decodeDependencyList xs
        | some _ => Except.error "cannot unmarshal dependencies")
      Except.ok { name := n, healthy := h, dependencies := ds, duration := 0 }
  | _ => Except.error "cannot unmarshal service check"

/-- One write performed on the `http.ResponseWriter`. -/
inductive WriteEvent
  | statusCode (c : Nat)
  | body (j : Json)

/-- `getHealth` returns `s.Healthy` (under the read lock). -/
def ServiceCheck.getHealth (s : ServiceCheck) : Bool :=
  s.healthy

/-- `IsHealthy` returns `getHealth`. -/
def ServiceCheck.IsHealthy (s : ServiceCheck) : Bool :=
  s.getHealth

/-- `HTTPHandler`: write header 200 when healthy, else 503, then write
the status body; modelled as the ordered list of writes performed on the
response writer. -/
def ServiceCheck.HTTPHandler (s : ServiceCheck) : List WriteEvent :=
  (if s.getHealth then [WriteEvent.statusCode 200]
   else [WriteEvent.statusCode 503])
  ++ [WriteEvent.body s.WriteStatus]

/-- Errors surfaced by the remote-check helpers; each constructor stands
for the failure of one external collaborator step. -/
inductive RemoteErr
  | urlError
  | requestError
  | transportError
  | decodeError (msg : String)
deriving DecidableEq, Repr

/-- `Check200Helper`, parametrized by the outcomes of its three external
steps (`url.ParseRequestURI`, `http.NewRequest`, `HTTPClient.Do`, the
last yielding the response status code): each failing step's error is
returned as-is; otherwise a non-200 status yields `(false, nil)` and a
200 status yields `(true, nil)`. -/
def Check200Helper (parseURI : Except RemoteErr Unit)
    (newRequest : Except RemoteErr Unit)
    (doRequest : Except RemoteErr Nat) : Except RemoteErr Bool :=
  match parseURI with
  | Except.error e => Except.error e
  | Except.ok _ =>
    match newRequest with
    | Except.error e => Except.error e
    | Except.ok _ =>
      match doRequest with
      | Except.error e => Except.error e
      | Except.ok status =>
        if status ≠ 200 then Except.ok false
        else Except.ok true

/-- `Get`, parametrized by the outcomes of its two external steps
(`http.NewRequest` and `HTTPClient.Do`, the latter yielding the status
code and response body): step errors are returned as-is, a non-200
status yields `(false, nil)` without reading the body, and on 200 the
body is decoded as a `ServiceCheck` (a decode failure is an error) and
its `Healthy` field returned. -/
def Get (newRequest : Except RemoteErr Unit)
    (doRequest : Except RemoteErr (Nat × Json)) : Except RemoteErr Bool :=
  match newRequest with
  | Except.error e => Except.error e
  | Except.ok _ =>
    match doRequest with
    | Except.error e => Except.error e
    | Except.ok (status, bd) =>
      if status ≠ 200 then Except.ok false
      else
        match decodeServiceCheck bd with
        | Except.error m => Except.error (RemoteErr.decodeError m)
        | Except.ok response => Except.ok response.healthy

/-- A concrete soft dependency used by witnesses. -/
def wDepA : Dependency :=
  { name := "a", healthy := true, level := LevelSoft, check := true }

/-- A concrete hard dependency whose probe fails, used by witnesses. -/
def wDepB : Dependency :=
  { name := "b", healthy := true, level := LevelHard, check := false }

/-- A concrete hard dependency after the failing one, used by
witnesses. -/
def wDepC : Dependency :=
  { name := "c", healthy := true, level := LevelHard, check := true }

/-- A concrete service check used by witnesses. -/
def wCheck : ServiceCheck :=
  { name := "svc", healthy := true,
    dependencies := [wDepA, wDepB, wDepC], duration := 5 }

/-- Witness for C2 at `wCheck`: the failing hard dependency is at index
1, so only `"a"` and `"b"` are probed, the record `wDepC` is untouched,
and the aggregate is `false`. -/
theorem updateStatus_short_circuit_witness :
    wCheck.probedNames = ["a", "b"] ∧
    wCheck.updateStatus.dependencies.drop 2 = [wDepC] ∧
    wCheck.updateStatus.healthy = false := by
  have h := updateStatus_short_circuit wCheck
    ⟨wDepB, by decide, by decide, by decide⟩
  have hfi : wCheck.dependencies.findIdx hardFailing = 1 := by decide
  rw [hfi] at h
  exact ⟨by rw [h.1]; decide, by rw [h.2.1]; decide, h.2.2⟩

/-- C3: `RegisterDependency` fails exactly when the name is empty
(returning `ErrNoDependency`, the error the source uses for a blank
dependency name) or already registered (`ErrDependencyAlreadyRegistered`);
in either failure case the state is returned unchanged and the probe is
invoked zero times, so however many records carried the colliding name
before the call (one, under the registry invariant) still do. -/
theorem registerDependency_failure (s : ServiceCheck) (n : String)
    (l : Level) (c : Bool) :
    (n = "" → s.RegisterDependency n l c = (some Err.ErrNoDependency, s, 0)) ∧
    (n ≠ "" → (∃ d ∈ s.dependencies, d.name = n) →
      s.RegisterDependency n l c =
        (some Err.ErrDependencyAlreadyRegistered, s, 0)) ∧
    ((s.RegisterDependency n l c).1 = none ↔
      n ≠ "" ∧ ∀ d ∈ s.dependencies, d.name ≠ n) := by
  refine ⟨?_, ?_, ?_⟩
  · intro hn
    simp [ServiceCheck.RegisterDependency, hn]
  · intro hn hd
    have : s.dependencies.any (fun d => d.name = n) = true := by
      rcases hd with ⟨d, hd, he⟩
      exact List.any_eq_true.mpr ⟨d, hd, by simp [he]⟩
    simp [ServiceCheck.RegisterDependency, hn, this]
  · unfold ServiceCheck.RegisterDependency
    split_ifs with hn hd
    · simp [hn]
    · simp only [List.any_eq_true] at hd
      rcases hd with ⟨d, hdm, he⟩
      simp only [decide_eq_true_eq] at he
      constructor
      · intro h; simp at h
      · rintro ⟨-, hall⟩
        exact absurd he (hall d hdm)
    · simp only [List.any_eq_true] at hd
      constructor
      · intro _
        exact ⟨hn, fun d hdm he => hd ⟨d, hdm, by simp [he]⟩⟩
      · intro _
        rfl

/-- Witness for C3 at `wCheck`: registering the empty name fails with
`ErrNoDependency`, leaves the state unchanged, and never calls the
probe. -/
theorem registerDependency_failure_witness :
    wCheck.RegisterDependency "" LevelHard true =
      (some Err.ErrNoDependency, wCheck, 0) :=
  (registerDependency_failure wCheck "" LevelHard true).1 rfl

/-- C4: a successful registration invokes the probe exactly once, seeds
the new record's `Healthy` field with the probe's result, and appends
the record at the end of the dependency list (all earlier records and
their order preserved). -/
theorem registerDependency_success (s : ServiceCheck) (n : String)
    (l : Level) (c : Bool) (hn : n ≠ "")
    (hd : ∀ d ∈ s.dependencies, d.name ≠ n) :
    s.RegisterDependency n l c =
      (none,
       { s with dependencies := s.dependencies ++
          [{ name := n, healthy := c, level := l, check := c }] },
       1) := by
  have hany : ¬ (s.dependencies.any (fun d => d.name = n) = true) := by
    simp only [List.any_eq_true, not_exists]
    intro d
    intro hcontra
    simp only [decide_eq_true_eq] at hcontra
    exact absurd hcontra.2 (hd d hcontra.1)
  simp [ServiceCheck.RegisterDependency, hn, hany]

/-- Witness for C4 at `wCheck`: registering a fresh name `"d"` with a
failing probe succeeds, calls the probe once, seeds `healthy := false`,
and appends at the end. -/
theorem registerDependency_success_witness :
    wCheck.RegisterDependency "d" LevelSoft false =
      (none,
       { wCheck with dependencies := wCheck.dependencies ++
          [{ name := "d", healthy := false, level := LevelSoft,
             check := false }] },
       1) :=
  registerDependency_success wCheck "d" LevelSoft false
    (by decide) (by decide)

/-- C5: for every non-empty service name and every duration, the
service check returned by `InitialiseServiceCheck` has its aggregate
`healthy` flag equal to `true` before any aggregation cycle or
registration has run — the struct literal sets `Healthy: true`
explicitly. -/
theorem initialise_healthy_initially_true (n : String) (dur : Nat)
    (hn : n ≠ "") :
    (InitialiseServiceCheck n dur).map ServiceCheck.healthy =
      Except.ok true := by
  simp [InitialiseServiceCheck, hn, Except.map]

/-- Witness for C5 at name `"svc"`, duration `7`. -/
theorem initialise_healthy_initially_true_witness :
    (InitialiseServiceCheck "svc" 7).map ServiceCheck.healthy =
      Except.ok true :=
  initialise_healthy_initially_true "svc" 7 (by decide)

/-- Decoding an encoded dependency restores every exported field; the
unexported probe comes back as its zero value. -/
theorem decodeDependency_encode (d : Dependency) :
    decodeDependency (encodeDependency d) =
      Except.ok { d with check := false } := rfl

/-- Decoding an encoded dependency array restores the list
elementwise. -/
theorem decodeDependencyList_encode (ds : List Dependency) :
    decodeDependencyList (ds.map encodeDependency) =
      Except.ok (ds.map fun d => { d with check := false }) := by
  induction ds with
  | nil => rfl
  | cons d rest ih =>
      simp [decodeDependencyList, decodeDependency_encode, ih,
        Bind.bind, Except.bind]

/-- C9: serializing a `ServiceCheck` with `WriteStatus` and decoding the
result as `Get` does yields a check with the same aggregate `healthy`
value. -/
theorem writeStatus_roundtrip_healthy (s : ServiceCheck) :
    (decodeServiceCheck s.WriteStatus).map ServiceCheck.healthy =
      Except.ok s.healthy := by
  simp [ServiceCheck.WriteStatus, encodeServiceCheck, decodeServiceCheck,
    decodeStringField, decodeBoolField, lookupField,
    decodeDependencyList_encode, Except.map, Bind.bind, Except.bind]

/-- C7: the HTTP handler writes status code 200 when the aggregate is
healthy and 503 when it is not, and in both cases then writes the
serialized snapshot, in that order. -/
theorem httpHandler_status_then_body (s : ServiceCheck) :
    (s.healthy = true →
      s.HTTPHandler =
        [WriteEvent.statusCode 200, WriteEvent.body s.WriteStatus]) ∧
    (s.healthy = false →
      s.HTTPHandler =
        [WriteEvent.statusCode 503, WriteEvent.body s.WriteStatus]) := by
  constructor
  · intro h
    simp [ServiceCheck.HTTPHandler, ServiceCheck.getHealth, h]
  · intro h
    simp [ServiceCheck.HTTPHandler, ServiceCheck.getHealth, h]

/-- Witness for C7 at `wCheck` (healthy): status 200 then the body. -/
theorem httpHandler_status_then_body_witness :
    wCheck.HTTPHandler =
      [WriteEvent.statusCode 200, WriteEvent.body wCheck.WriteStatus] :=
  (httpHandler_status_then_body wCheck).1 rfl

/-- C8: the remote-check helpers return `true` (for `Get`, the decoded
snapshot's `healthy`) only on an exact 200 status, return `false`
without an error on any non-200 status, and return an error exactly when
an external step (URL parsing, request construction, transport) fails or,
for `Get`, when a 200 body does not decode. -/
theorem remote_helpers_characterisation (st : Nat) (bd : Json)
    (e : RemoteErr) :
    (Check200Helper (Except.ok ()) (Except.ok ()) (Except.ok st) =
      Except.ok (decide (st = 200))) ∧
    (∀ q r, Check200Helper (Except.error e) q r = Except.error e) ∧
    (∀ r, Check200Helper (Except.ok ()) (Except.error e) r =
      Except.error e) ∧
    (Check200Helper (Except.ok ()) (Except.ok ()) (Except.error e) =
      Except.error e) ∧
    (st ≠ 200 → Get (Except.ok ()) (Except.ok (st, bd)) =
      Except.ok false) ∧
    (Get (Except.ok ()) (Except.ok (200, bd)) =
      (match decodeServiceCheck bd with
       | Except.error m => Except.error (RemoteErr.decodeError m)
       | Except.ok response => Except.ok response.healthy)) ∧
    (∀ r, Get (Except.error e) r = Except.error e) ∧
    (Get (Except.ok ()) (Except.error e) = Except.error e) := by
  refine ⟨?_, fun q r => rfl, fun r => rfl, rfl, ?_, ?_, fun r => rfl, rfl⟩
  · by_cases h : st = 200
    · simp [Check200Helper, h]
    · simp [Check200Helper, h]
  · intro h
    simp [Get, h]
  · simp [Get]

/-- Witness for C8 at status 404 and the encoded `wCheck` body: both
helpers report `false` without an error. -/
theorem remote_helpers_characterisation_witness :
    Check200Helper (Except.ok ()) (Except.ok ()) (Except.ok 404) =
      Except.ok false ∧
    Get (Except.ok ()) (Except.ok (404, encodeServiceCheck wCheck)) =
      Except.ok false := by
  have h := remote_helpers_characterisation 404 (encodeServiceCheck wCheck)
    RemoteErr.transportError
  exact ⟨by simpa using h.1, h.2.2.2.2.1 (by decide)⟩

/-- C10: `Level` is open — registration succeeds for any level value,
including values outside the two declared constants — and during
aggregation every dependency whose level is not exactly `LevelHard`
behaves like a soft one: if no dependency has level `LevelHard`, the
aggregate is `true` after a cycle no matter what the probes return. -/
theorem level_open_uint32 (s : ServiceCheck) (n : String) (c : Bool)
    (lvl : Level) (hn : n ≠ "")
    (hd : ∀ d ∈ s.dependencies, d.name ≠ n) :
    (s.RegisterDependency n lvl c).1 = none ∧
    ∀ t : ServiceCheck, (∀ d ∈ t.dependencies, d.level ≠ LevelHard) →
      t.updateStatus.healthy = true := by
  constructor
  · have hany : ¬ (s.dependencies.any (fun d => d.name = n) = true) := by
      simp only [List.any_eq_true, not_exists]
      intro d hcontra
      simp only [decide_eq_true_eq] at hcontra
      exact absurd hcontra.2 (hd d hcontra.1)
    simp [ServiceCheck.RegisterDependency, hn, hany]
  · intro t ht
    show (updateStatusLoop t.dependencies).2.1 = true
    rw [updateStatusLoop_healthy]
    rw [List.all_eq_true]
    intro d hdm
    simp [ht d hdm]

/-- A dependency with the out-of-range level `2` whose probe fails, for
the C10 witness. -/
def wDepL2 : Dependency :=
  { name := "z", healthy := true, level := 2, check := false }

/-- A service check holding only `wDepL2`, for the C10 witness. -/
def wCheckL2 : ServiceCheck :=
  { name := "svc2", healthy := false, dependencies := [wDepL2],
    duration := 1 }

/-- Witness for C10: registering at level `2` succeeds, and a failing
level-`2` dependency still yields aggregate `true` after a cycle. -/
theorem level_open_uint32_witness :
    (wCheckL2.RegisterDependency "y" 2 true).1 = none ∧
    wCheckL2.updateStatus.healthy = true := by
  have h := level_open_uint32 wCheckL2 "y" true 2 (by decide) (by decide)
  exact ⟨h.1, h.2 wCheckL2 (by decide)⟩

end Health
